import Mathlib

/-!
Shallow embedding of the ImmunoDetect feature-encoding and risk-scoring
pipeline (files `api.py`, `ml_api.py`, `inference.py`, `predict.py` of the
repository) together with theorems settling the frozen claims about it.

Numeric values flowing through the pipeline are modelled as rationals;
Python dictionaries are modelled as association lists; a pandas single-row
DataFrame is modelled as a list of (column name, value) cells where the
`.at` setter updates matching cells and appends a fresh column when the
name is absent, mirroring pandas semantics.
-/

namespace ImmunoDetect

/-- Occurrence of a pattern as a contiguous sublist. -/
def hasSublist (pat : List Char) : List Char → Bool
  | [] => pat.isEmpty
  | c :: rest => pat.isPrefixOf (c :: rest) || hasSublist pat rest

/-- Membership test of a pattern inside a string, mirroring the Python
expression `pat in s` for the literals used in the source (such as
"SCID" and "Healthy"). -/
def strContains (s pat : String) : Bool :=
  hasSublist pat.data s.data

/-- Uppercasing of an ASCII character. -/
def asciiUpper (c : Char) : Char :=
  if 97 ≤ c.toNat ∧ c.toNat ≤ 122 then Char.ofNat (c.toNat - 32) else c

/-- Uppercasing of an ASCII string, mirroring Python `s.upper()` on the
ASCII diagnosis labels of this code base. -/
def strUpper (s : String) : String :=
  ⟨s.data.map asciiUpper⟩

/-- Raw JSON-ish values arriving in a patient record: strings, booleans,
numbers, or null.  Numeric payloads are modelled as rationals. -/
inductive RawValue where
  | str (s : String)
  | bool (b : Bool)
  | num (q : ℚ)
  | null
deriving DecidableEq, Repr

/-- Python rounding of a rational to the nearest integer, halves to even,
as the built-in `round` behaves on the values of this pipeline. -/
def pyRound (q : ℚ) : ℤ :=
  let f : ℤ := ⌊q⌋
  let r : ℚ := q - (f : ℚ)
  if r < 1/2 then f
  else if 1/2 < r then f + 1
  else if f % 2 = 0 then f else f + 1

/-- Python rounding to `nd` decimal digits, halves to even, modelling
`round(x, nd)`. -/
def pyRoundTo (q : ℚ) (nd : ℕ) : ℚ :=
  (pyRound (q * (10 : ℚ) ^ nd) : ℚ) / (10 : ℚ) ^ nd

/-- The two lab fields that the clinical post-processor of `api.py` reads
from the raw patient dictionary via `patient_data.get(key, default)`.
A value of `none` models an absent key.  (String-valued lab fields, which
would raise a TypeError on comparison in Python, are outside the modelled
domain; every claim concerns numeric or absent lab values.) -/
structure PatientData where
  labALCLevel : Option ℚ
  labIgGLevel : Option ℚ
deriving DecidableEq, Repr

/-- Embedding of `determine_risk_level` from `api.py` (lines 146-166). -/
def determine_risk_level (diagnosis : String) (confidence : ℚ)
    (patient_data : PatientData) : String :=
  if strContains diagnosis "SCID" then
    if confidence > 8/10 then "critical" else "high"
  else
    let alc := patient_data.labALCLevel.getD 1000
    let igg := patient_data.labIgGLevel.getD 400
    if alc < 500 ∨ igg < 200 then "high"
    else if alc < 1000 ∨ igg < 400 then "moderate"
    else if strContains diagnosis "Healthy" then "low"
    else "moderate"

/-- Embedding of `calculate_risk_score` from `api.py` (lines 168-188). -/
def calculate_risk_score (diagnosis : String) (confidence : ℚ)
    (patient_data : PatientData) : ℤ :=
  let base_score : ℚ :=
    if strContains diagnosis "SCID" then 80
    else if strContains diagnosis "Healthy" then 20
    else 50
  let score := base_score * confidence
  let alc := patient_data.labALCLevel.getD 1000
  let score := if alc < 500 then score + 15
    else if alc < 1000 then score + 8
    else score
  min 100 (max 0 (pyRound score))

/-- Urgent note appended by `get_recommendations` when the lymphocyte
count is critically low. -/
def urgentALCNote : String :=
  "URGENT: Critically low lymphocyte count - immediate intervention required"

/-- Diagnosis-keyed base recommendation lists from `get_recommendations`
in `api.py` (lines 190-221), before the lab-specific append. -/
def base_recommendations (diagnosis : String) : List String :=
  if strContains diagnosis "SCID_X_Linked" then
    ["Immediate consultation with pediatric immunologist",
     "Consider hematopoietic stem cell transplantation (HSCT)",
     "Implement protective isolation protocols",
     "Avoid live vaccines",
     "Prophylactic antimicrobial therapy"]
  else if strContains diagnosis "SCID_ADA" then
    ["Immediate consultation with pediatric immunologist",
     "Consider enzyme replacement therapy (PEG-ADA)",
     "Evaluate for gene therapy eligibility",
     "Implement protective isolation protocols",
     "Regular metabolic monitoring"]
  else if strContains diagnosis "Healthy" then
    ["Continue routine pediatric care",
     "Follow standard immunization schedule",
     "Monitor for any new symptoms"]
  else
    ["Consult with immunologist for further evaluation",
     "Consider additional genetic testing",
     "Monitor immune function parameters"]

/-- Embedding of `get_recommendations` from `api.py` (lines 190-228).
The `risk_level` argument is accepted and ignored, as in the source. -/
def get_recommendations (diagnosis : String) (_risk_level : String)
    (patient_data : PatientData) : List String :=
  let recommendations := base_recommendations diagnosis
  let alc := patient_data.labALCLevel.getD 1000
  if alc < 500 then recommendations ++ [urgentALCNote]
  else recommendations

/-- Embedding of `calculate_risk_level` from `ml_api.py` (lines 159-173),
the divergent FastAPI variant of risk-level derivation. -/
def calculate_risk_level (confidence : ℚ) (diagnosis : String) : String :=
  let up := strUpper diagnosis
  if up = "HEALTHY" ∨ up = "NORMAL" ∨ up = "NO_DISEASE" then "LOW"
  else if confidence ≥ 85/100 then
    (if strContains up "SCID" then "CRITICAL" else "HIGH")
  else if confidence ≥ 7/10 then
    (if strContains up "SCID" then "HIGH" else "MODERATE")
  else if confidence ≥ 1/2 then "MODERATE"
  else "LOW"

example : determine_risk_level "SCID_X_Linked" (9/10) ⟨some 5000, some 5000⟩ = "critical" := by
  norm_num [determine_risk_level, show strContains "SCID_X_Linked" "SCID" = true from by decide]

example : determine_risk_level "Healthy" (9/10) ⟨none, none⟩ = "low" := by
  norm_num [determine_risk_level, show strContains "Healthy" "SCID" = false from by decide,
    show strContains "Healthy" "Healthy" = true from by decide]

example : calculate_risk_level (81/100) "SCID_X_Linked" = "HIGH" := by
  norm_num [calculate_risk_level, show strUpper "SCID_X_Linked" = "SCID_X_LINKED" from by decide,
    show strContains "SCID_X_LINKED" "SCID" = true from by decide,
    show ("SCID_X_LINKED" : String) ≠ "HEALTHY" from by decide,
    show ("SCID_X_LINKED" : String) ≠ "NORMAL" from by decide,
    show ("SCID_X_LINKED" : String) ≠ "NO_DISEASE" from by decide]

example : calculate_risk_score "Healthy" 1 ⟨none, none⟩ = 20 := by
  norm_num [calculate_risk_score, pyRound,
    show strContains "Healthy" "SCID" = false from by decide,
    show strContains "Healthy" "Healthy" = true from by decide]

/-! ## The single-row DataFrame model and the artifact bundle -/

/-- A single pandas DataFrame row: an ordered list of (column name, value)
cells. -/
abbrev Row := List (String × ℚ)

/-- Cell assignment `df.at[0, col] = v`: every cell labelled `col` is
updated; when no such column exists pandas appends a fresh one. -/
def dfAt (df : Row) (col : String) (v : ℚ) : Row :=
  if df.any (fun c => c.1 = col) then
    df.map (fun c => if c.1 = col then (col, v) else c)
  else df ++ [(col, v)]

/-- Construction `pd.DataFrame(0, index=[0], columns=feature_names,
dtype=float)`: one row of zeros in schema order. -/
def dfInit (cols : List String) : Row :=
  cols.map (fun c => (c, (0 : ℚ)))

/-- Column labels of a row. -/
def dfCols (df : Row) : List String :=
  df.map Prod.fst

/-- The model artifact bundle persisted by `train_model.py` and consumed
read-only by every serving variant: ordered feature schema, per-column
fitted categorical encoders (a category value maps to its integer code,
`none` for a category unseen at fit time), the fitted scaler (modelled as
a per-column numeric transform, as it acts on a correctly ordered row),
the classifier (arg-max class index and class probability vector), the
target-label classes and the global feature-importance scores. -/
structure Bundle where
  feature_names : List String
  encoders : List (String × (String → Option ℚ))
  scale : String → ℚ → ℚ
  model : Row → ℕ
  modelProbs : Row → List ℚ
  target_classes : List String
  importances : List ℚ

/-- Application of a fitted label encoder to an incoming raw value,
modelling `encoders[col].transform([value])[0]`: the fitted classes are
strings, so a non-string payload raises and is treated as unseen. -/
def encodeValue (enc : String → Option ℚ) : RawValue → Option ℚ
  | .str s => enc s
  | _ => none

/-- Coercion `float(value)` as used on numeric feature columns; `none`
models the ValueError/TypeError path.  String payloads are parsed as
integer literals only (a fractional string literal parses to `none`;
no claim depends on fractional string parsing). -/
def pyFloat? : RawValue → Option ℚ
  | .num q => some q
  | .bool b => some (if b then 1 else 0)
  | .str s => s.toInt?.map (fun n => (n : ℚ))
  | .null => none

/-- Boolean normalization in `predict_patient_status` of `api.py`
(lines 77-79): a boolean payload becomes the string Yes or No before
encoding. -/
def normBool : RawValue → RawValue
  | .bool b => .str (if b then "Yes" else "No")
  | v => v

/-- The fixed external-to-internal field-name table shared by `api.py`
(lines 55-69) and `inference.py` (lines 54-68). -/
def feature_mapping : List (String × String) :=
  [("ageYears", "Age_Years"),
   ("gender", "Gender"),
   ("familyHistory", "Family_History"),
   ("consanguinity", "Consanguinity"),
   ("infectionEarFreq", "Infection_Ear_Freq"),
   ("infectionLungFreq", "Infection_Lung_Freq"),
   ("persistentThrush", "Persistent_Thrush"),
   ("chronicDiarrhea", "Chronic_Diarrhea"),
   ("failureToThrive", "Failure_to_Thrive"),
   ("historyIVAntibiotics", "History_IV_Antibiotics"),
   ("labALCLevel", "Lab_ALC_Level"),
   ("labIgGLevel", "Lab_IgG_Level"),
   ("primaryGeneSymbol", "Primary_Gene_Symbol")]

/-- Translation of the raw patient dictionary into `manual_data` in
`api.py` (lines 71-81): recognized keys are renamed through
`feature_mapping`, booleans normalized, everything else dropped. -/
def manualData (patient : List (String × RawValue)) : List (String × RawValue) :=
  patient.filterMap (fun kv =>
    (feature_mapping.lookup kv.1).map (fun mk => (mk, normBool kv.2)))

/-- One iteration of the manual-input loop of `api.py` (lines 84-96):
columns outside the schema are ignored; categorical columns go through
their encoder with unseen values degrading to 0.0; numeric columns are
float-coerced with failures degrading to 0.0. -/
def processCell (b : Bundle) (df : Row) (kv : String × RawValue) : Row :=
  if kv.1 ∈ b.feature_names then
    match b.encoders.lookup kv.1 with
    | some enc => dfAt df kv.1 ((encodeValue enc kv.2).getD 0)
    | none => dfAt df kv.1 ((pyFloat? kv.2).getD 0)
  else df

/-- The manual-input loop of `api.py` (lines 84-96). -/
def processManual (b : Bundle) (df : Row) (manual : List (String × RawValue)) : Row :=
  manual.foldl (processCell b) df

/-- One iteration of the gene-expression loop of `api.py`
(lines 100-104): an assay or housekeeping column, located by prefix
convention, is looked up in the gene record under the stripped symbol. -/
def geneStep (gd : List (String × ℚ)) (df : Row) (feature : String) : Row :=
  if strContains feature "Gene_Exp_" || strContains feature "Control_Gene_" then
    match gd.lookup ((feature.replace "Gene_Exp_" "").replace "Control_Gene_" "") with
    | some v => dfAt df feature v
    | none => df
  else df

/-- The gene-expression loop of `api.py` (lines 98-104). -/
def processGene (b : Bundle) (df : Row) (gene : Option (List (String × ℚ))) : Row :=
  match gene with
  | none => df
  | some gd => b.feature_names.foldl (geneStep gd) df

/-- Population of the encoded feature vector in `predict_patient_status`
of `api.py` (lines 52-104), before scaling. -/
def api_encode (b : Bundle) (patient : List (String × RawValue))
    (gene : Option (List (String × ℚ))) : Row :=
  processGene b (processManual b (dfInit b.feature_names) (manualData patient)) gene

/-- The scaling step of `api.py` (lines 106-111), `predict.py`
(lines 119-123) and `inference.py` (lines 105-110): the single fitted
scaler transforms the full-width row, every column included. -/
def scaleAll (b : Bundle) (df : Row) : Row :=
  df.map (fun c => (c.1, b.scale c.1 c.2))

/-- The scaling step of `prepare_input_data` in `ml_api.py`
(lines 275-277): only the columns not owned by a categorical encoder are
scaled, so integer-encoded categorical columns keep their raw codes. -/
def mlapi_scale (b : Bundle) (df : Row) : Row :=
  df.map (fun c =>
    if (b.encoders.lookup c.1).isSome then c else (c.1, b.scale c.1 c.2))

/-! ## The inference.py one-shot variant -/

/-- Python equality across the payload types appearing in the membership
tests of `inference.py` (True equals 1, False equals 0, None equals
nothing). -/
def pyEq : RawValue → RawValue → Bool
  | .num a, .num b => decide (a = b)
  | .str a, .str b => decide (a = b)
  | .bool a, .bool b => decide (a = b)
  | .bool a, .num b => decide (b = if a then 1 else 0)
  | .num a, .bool b => decide (a = if b then 1 else 0)
  | _, _ => false

/-- The `value_mapping` table of `inference.py` (lines 70-78), normalizing
categorical payloads before encoding. -/
def infer_value_map (k : String) (v : RawValue) : RawValue :=
  if k = "familyHistory" ∨ k = "consanguinity" ∨ k = "failureToThrive" ∨
      k = "historyIVAntibiotics" then
    .str (if pyEq v (.bool true) || pyEq v (.str "true") || pyEq v (.str "Yes") ||
        pyEq v (.num 1) then "Yes" else "No")
  else if k = "persistentThrush" then
    .str (if pyEq v (.str "Persistent") || pyEq v (.str "Yes") || pyEq v (.bool true)
      then "Persistent" else "No")
  else if k = "chronicDiarrhea" then
    .str (if pyEq v (.str "Chronic") || pyEq v (.str "Yes") || pyEq v (.bool true)
      then "Chronic" else "No")
  else v

/-- One iteration of the population loop in `predict` of `inference.py`
(lines 84-103): a table entry absent from the request or from the schema
is skipped; otherwise the value is normalized and encoded or
float-coerced, degrading to 0.0 on failure. -/
def inferStep (b : Bundle) (input : List (String × RawValue)) (df : Row)
    (km : String × String) : Row :=
  match input.lookup km.1 with
  | none => df
  | some v0 =>
    if km.2 ∈ b.feature_names then
      let v := infer_value_map km.1 v0
      match b.encoders.lookup km.2 with
      | some enc => dfAt df km.2 ((encodeValue enc v).getD 0)
      | none => dfAt df km.2 (if v = RawValue.null then 0 else (pyFloat? v).getD 0)
    else df

/-- Population of the feature vector in `predict` of `inference.py`
(lines 80-103): the loop runs over the fixed field-name table. -/
def inference_encode (b : Bundle) (input : List (String × RawValue)) : Row :=
  feature_mapping.foldl (inferStep b input) (dfInit b.feature_names)

/-- Numeric read of a key from the raw input dictionary with a default,
modelling `input_data.get(key, default)` followed by a numeric
comparison.  (A string payload would raise a TypeError on the comparison
in Python and is outside the modelled domain.) -/
def getNumD (input : List (String × RawValue)) (k : String) (d : ℚ) : ℚ :=
  match input.lookup k with
  | some (.num q) => q
  | some (.bool b) => if b then 1 else 0
  | _ => d

/-- The diagnosis-to-risk dictionary of `inference.py` (lines 126-131),
with the `medium` fallback of `risk_levels.get`. -/
def infer_risk_level (diagnosis : String) : String :=
  if diagnosis = "Healthy" then "low"
  else if diagnosis = "SCID_ADA" then "critical"
  else if diagnosis = "SCID_X_Linked" then "critical"
  else "medium"

/-- Embedding of `generate_recommendations` from `inference.py`
(lines 157-188).  Note the lab defaults here are 0, unlike the defaults
of `api.py`. -/
def inference_recommendations (diagnosis : String) (confidence : ℚ)
    (input : List (String × RawValue)) : List String :=
  let base : List String :=
    if diagnosis = "Healthy" then
      ["Continue routine monitoring and follow-up",
       "Maintain current immunization schedule"] ++
      (if confidence < 80 then ["Consider additional testing to confirm healthy status"]
       else [])
    else if diagnosis = "SCID_X_Linked" then
      ["URGENT: Refer to pediatric immunologist immediately",
       "Initiate protective isolation protocols",
       "Genetic counseling for IL2RG mutation confirmation",
       "Evaluate for bone marrow transplant eligibility",
       "Avoid live vaccines until immune function is restored"]
    else if diagnosis = "SCID_ADA" then
      ["URGENT: Refer to pediatric immunologist immediately",
       "Consider ADA enzyme replacement therapy (PEG-ADA)",
       "Genetic testing to confirm ADA gene mutation",
       "Evaluate for gene therapy clinical trials",
       "Initiate protective isolation protocols"]
    else []
  (base ++
    (if getNumD input "labALCLevel" 0 < 500 then
      ["Monitor absolute lymphocyte count closely"] else [])) ++
  (if getNumD input "labIgGLevel" 0 < 200 then
    ["Consider IVIG replacement therapy"] else [])

/-- The prediction dictionary returned by `predict` of `inference.py`
(lines 136-147).  The timestamp field records the wall clock at response
time (`pd.Timestamp.now().isoformat()`). -/
structure InferencePrediction where
  diagnosis : String
  confidence : ℚ
  riskLevel : String
  probabilities : List (String × ℚ)
  recommendations : List String
  modelVersion : String
  timestamp : String
deriving DecidableEq, Repr

/-- The top-level result of `predict` in `inference.py`: a structured
failure or a prediction payload. -/
inductive InferenceOutput where
  | failure (error : String)
  | ok (prediction : InferencePrediction)
deriving DecidableEq, Repr

/-- Embedding of `predict` from `inference.py` (lines 28-154).  The
wall-clock reading `pd.Timestamp.now().isoformat()` is passed in as the
explicit argument `now`. -/
def inference_predict (sys : Option Bundle) (input : List (String × RawValue))
    (now : String) : InferenceOutput :=
  match sys with
  | none => .failure "Model not found. Please train the model first."
  | some b =>
    let scaled := scaleAll b (inference_encode b input)
    let pred_idx := b.model scaled
    let pred_probs := b.modelProbs scaled
    let diagnosis := b.target_classes.getD pred_idx ""
    let confidence := (pred_probs.getD pred_idx 0) * 100
    .ok {
      diagnosis := diagnosis
      confidence := pyRoundTo confidence 2
      riskLevel := infer_risk_level diagnosis
      probabilities := (b.target_classes.zip pred_probs).map (fun p => (p.1, p.2 * 100))
      recommendations := inference_recommendations diagnosis confidence input
      modelVersion := "1.0.0"
      timestamp := now }

/-! ## The api.py Flask variant -/

/-- One entry of the explainability list built by
`get_feature_importance` in `api.py`. -/
structure FIEntry where
  feature : String
  importance : ℚ
  direction : String
deriving DecidableEq, Repr

/-- Embedding of `np.argsort` over the importance scores: the index list
sorted by ascending score.  (Tie order among equal scores is
unspecified by the source; this embedding fixes the stable order.) -/
def argsort (xs : List ℚ) : List ℕ :=
  List.insertionSort (fun i j => xs.getD i 0 ≤ xs.getD j 0) (List.range xs.length)

/-- The index selection `np.argsort(importances)[-10:][::-1]` of
`api.py` line 237: the last ten ascending positions, reversed. -/
def topIndices (xs : List ℚ) : List ℕ :=
  ((argsort xs).drop ((argsort xs).length - 10)).reverse

/-- One appended entry of the explainability loop (lines 241-246):
the feature name, the score rounded to four digits, and a direction
derived from the sign of the scaled request value at that position. -/
def mkFIEntry (b : Bundle) (scaled : Row) (i : ℕ) : FIEntry :=
  { feature := b.feature_names.getD i ""
    importance := pyRoundTo (b.importances.getD i 0) 4
    direction := if (scaled.map Prod.snd).getD i 0 > 0 then "positive" else "negative" }

/-- Embedding of `get_feature_importance` from `api.py`
(lines 230-250). -/
def get_feature_importance (b : Bundle) (scaled : Row) : List FIEntry :=
  (topIndices b.importances).filterMap (fun i =>
    if b.importances.getD i 0 > 1/100 then some (mkFIEntry b scaled i) else none)

/-- Extraction of the lab fields the clinical post-processor reads from
the raw patient dictionary.  (String or null lab payloads, which would
raise a TypeError on comparison in Python, are outside the modelled
domain and mapped to the absent-key default.) -/
def patientDataOf (patient : List (String × RawValue)) : PatientData :=
  { labALCLevel :=
      match patient.lookup "labALCLevel" with
      | some (.num q) => some q
      | some (.bool b) => some (if b then 1 else 0)
      | _ => none
    labIgGLevel :=
      match patient.lookup "labIgGLevel" with
      | some (.num q) => some q
      | some (.bool b) => some (if b then 1 else 0)
      | _ => none }

/-- The success payload of `predict_patient_status` in `api.py`
(lines 135-144). -/
structure ApiPrediction where
  diagnosis : String
  confidence : ℚ
  riskLevel : String
  riskScore : ℤ
  allProbabilities : List (String × ℚ)
  recommendations : List String
  featureImportance : List FIEntry
  modelVersion : String
deriving DecidableEq, Repr

/-- The result of `predict_patient_status` in `api.py`: either the
model-unavailable error dictionary of lines 39-44 or the prediction
payload. -/
inductive ApiOutput where
  | noSystem (error diagnosis : String) (confidence : ℚ) (riskLevel : String)
  | ok (p : ApiPrediction)
deriving DecidableEq, Repr

/-- Embedding of `predict_patient_status` from `api.py` (lines 33-144). -/
def api_predict_patient_status (sys : Option Bundle)
    (patient : List (String × RawValue)) (gene : Option (List (String × ℚ))) :
    ApiOutput :=
  match sys with
  | none => .noSystem "System not loaded" "Unknown" 0 "unknown"
  | some b =>
    let scaled := scaleAll b (api_encode b patient gene)
    let pred_idx := b.model scaled
    let pred_probs := b.modelProbs scaled
    let diagnosis := b.target_classes.getD pred_idx ""
    let confidence := pred_probs.getD pred_idx 0
    let pdata := patientDataOf patient
    let risk_level := determine_risk_level diagnosis confidence pdata
    .ok {
      diagnosis := diagnosis
      confidence := pyRoundTo (confidence * 100) 2
      riskLevel := risk_level
      riskScore := calculate_risk_score diagnosis confidence pdata
      allProbabilities := b.target_classes.zip pred_probs
      recommendations := get_recommendations diagnosis risk_level pdata
      featureImportance := get_feature_importance b scaled
      modelVersion := "1.0.0" }

/-- A parsed request body of the `/predict` route of `api.py`: the
patient dictionary and the optional gene record. -/
structure ApiRequestBody where
  patientData : List (String × RawValue)
  geneData : Option (List (String × ℚ))

/-- The transport-level responses of the `/predict` route. -/
inductive HttpResponse where
  | badRequest (error : String)
  | okResponse (success : Bool) (prediction : ApiOutput)
deriving DecidableEq, Repr

/-- The required-field list of the `/predict` route (line 278). -/
def required_fields : List String :=
  ["ageYears", "gender", "labALCLevel", "labIgGLevel"]

/-- Embedding of the `/predict` route handler of `api.py`
(lines 262-291): absent body and missing required fields are rejected
with structured 400 errors before the pipeline runs. -/
def predict_route (sys : Option Bundle) (body : Option ApiRequestBody) :
    HttpResponse :=
  match body with
  | none => .badRequest "No data provided"
  | some data =>
    let missing := required_fields.filter
      (fun f => (data.patientData.lookup f).isNone)
    if missing.isEmpty then
      .okResponse true (api_predict_patient_status sys data.patientData data.geneData)
    else
      .badRequest ("Missing required fields: " ++ String.intercalate ", " missing)

/-! ## Theorems -/

/-- The risk-score formula exactly as the claim words it: a
diagnosis-conditioned base, times confidence, plus a lab penalty,
rounded and clamped to the unit-hundred interval.  Stated separately so
the source embedding can be proved to refine it. -/
def risk_score_spec (diagnosis : String) (confidence : ℚ)
    (patient_data : PatientData) : ℤ :=
  let base : ℚ :=
    if strContains diagnosis "SCID" then 80
    else if strContains diagnosis "Healthy" then 20
    else 50
  let alc := patient_data.labALCLevel.getD 1000
  let penalty : ℚ := if alc < 500 then 15 else if alc < 1000 then 8 else 0
  min 100 (max 0 (pyRound (base * confidence + penalty)))

/-- C3: for every diagnosis string, confidence and patient record the
risk score of `api.py` equals the clamp to [0, 100] of
round(base * confidence + penalty), with base 80 / 20 / 50 by diagnosis
and penalty 15 / 8 / 0 by lymphocyte count, and in particular always
lies in [0, 100] (here proved for all rational confidence values, which
subsumes the claimed interval [0, 1]). -/
theorem C3_risk_score_formula_and_bounds (d : String) (c : ℚ) (p : PatientData) :
    calculate_risk_score d c p = risk_score_spec d c p ∧
    0 ≤ calculate_risk_score d c p ∧ calculate_risk_score d c p ≤ 100 := by
  refine ⟨?_, ?_, ?_⟩
  · simp only [calculate_risk_score, risk_score_spec]
    split_ifs <;> simp [add_zero]
  · simp only [calculate_risk_score]
    split_ifs <;> exact le_min (by norm_num) (le_max_left _ _)
  · simp only [calculate_risk_score]
    split_ifs <;> exact min_le_left _ _

/-- C7: with no loaded bundle, both the Flask pipeline and the one-shot
pipeline return their structured model-unavailable results for every
input; no classifier is invoked (structurally, no bundle and hence no
classifier exists in that state, and the result is a constant). -/
theorem C7_model_unavailable_structured_error
    (patient input : List (String × RawValue))
    (gene : Option (List (String × ℚ))) (now : String) :
    api_predict_patient_status none patient gene =
      ApiOutput.noSystem "System not loaded" "Unknown" 0 "unknown" ∧
    inference_predict none input now =
      InferenceOutput.failure "Model not found. Please train the model first." :=
  ⟨rfl, rfl⟩

/-- C10: the clinical post-processor of `api.py` reads absent lab fields
as 1000 (lymphocyte count) and 400 (antibody level); consequently an
absent lab value never fires the lab-based risk-level branches, never
adds a penalty to the risk score, and never appends the urgent
low-lymphocyte recommendation. -/
theorem C10_absent_lab_fields_default (d rl : String) (c : ℚ)
    (alc igg : Option ℚ) :
    determine_risk_level d c ⟨none, igg⟩ = determine_risk_level d c ⟨some 1000, igg⟩ ∧
    determine_risk_level d c ⟨alc, none⟩ = determine_risk_level d c ⟨alc, some 400⟩ ∧
    calculate_risk_score d c ⟨none, igg⟩ = calculate_risk_score d c ⟨some 1000, igg⟩ ∧
    get_recommendations d rl ⟨none, igg⟩ = get_recommendations d rl ⟨some 1000, igg⟩ ∧
    get_recommendations d rl ⟨none, igg⟩ = base_recommendations d ∧
    urgentALCNote ∉ get_recommendations d rl ⟨none, igg⟩ ∧
    calculate_risk_score d c ⟨none, igg⟩ =
      min 100 (max 0 (pyRound ((if strContains d "SCID" then (80 : ℚ)
        else if strContains d "Healthy" then 20 else 50) * c))) ∧
    determine_risk_level d c ⟨none, none⟩ =
      (if strContains d "SCID" then (if c > 8/10 then "critical" else "high")
       else if strContains d "Healthy" then "low" else "moderate") := by
  have hrec : get_recommendations d rl ⟨none, igg⟩ = base_recommendations d := by
    simp [get_recommendations, show ¬((1000 : ℚ) < 500) from by norm_num]
  refine ⟨rfl, rfl, rfl, rfl, hrec, ?_, ?_, ?_⟩
  · rw [hrec]
    unfold base_recommendations urgentALCNote
    split_ifs <;> decide
  · simp [calculate_risk_score,
      show ¬((1000 : ℚ) < 500) from by norm_num,
      show ¬((1000 : ℚ) < 1000) from by norm_num]
  · simp [determine_risk_level,
      show ¬((1000 : ℚ) < 500) from by norm_num,
      show ¬((1000 : ℚ) < 1000) from by norm_num,
      show ¬((400 : ℚ) < 200) from by norm_num,
      show ¬((400 : ℚ) < 400) from by norm_num]

/-- C2 (amended): for the Flask variant (`determine_risk_level` in
`api.py`) the claim holds exactly: a diagnosis containing SCID yields
critical precisely when confidence exceeds 0.8 and high otherwise,
independent of the lab values.  The FastAPI variant
(`calculate_risk_level` in `ml_api.py`), also cited by the claim,
instead grades a SCID diagnosis by the thresholds 0.85 / 0.7 / 0.5 with
upper-case labels. -/
theorem C2_scid_risk_level (d : String) (c : ℚ) (p : PatientData)
    (h : strContains d "SCID" = true) :
    determine_risk_level d c p = (if c > 8/10 then "critical" else "high") ∧
    ((strUpper d ≠ "HEALTHY" ∧ strUpper d ≠ "NORMAL" ∧ strUpper d ≠ "NO_DISEASE") →
      strContains (strUpper d) "SCID" = true →
      calculate_risk_level c d =
        (if c ≥ 85/100 then "CRITICAL"
         else if c ≥ 7/10 then "HIGH"
         else if c ≥ 1/2 then "MODERATE" else "LOW")) := by
  constructor
  · simp [determine_risk_level, h]
  · rintro ⟨h1, h2, h3⟩ hscid
    simp [calculate_risk_level, h1, h2, h3, hscid]

/-- Witness for C2: a SCID diagnosis at confidence 0.9 is critical even
with severely abnormal lab values, by the amended theorem. -/
theorem C2_scid_risk_level_witness :
    determine_risk_level "SCID_ADA" (9/10) ⟨some 100, some 100⟩ = "critical" := by
  have h := (C2_scid_risk_level "SCID_ADA" (9/10) ⟨some 100, some 100⟩ (by decide)).1
  rw [h, if_pos (by norm_num)]

/-- Counterexample for C2 as frozen: in the cited `ml_api.py` variant a
diagnosis containing SCID at confidence 0.81 (which exceeds 0.8) yields
the level HIGH, not critical. -/
theorem C2_counterexample_mlapi_thresholds :
    strContains "SCID_X_Linked" "SCID" = true ∧ (8/10 : ℚ) < 81/100 ∧
    calculate_risk_level (81/100) "SCID_X_Linked" = "HIGH" ∧
    calculate_risk_level (81/100) "SCID_X_Linked" ≠ "critical" := by
  have hval : calculate_risk_level (81/100) "SCID_X_Linked" = "HIGH" := by
    norm_num [calculate_risk_level,
      show strUpper "SCID_X_Linked" = "SCID_X_LINKED" from by decide,
      show strContains "SCID_X_LINKED" "SCID" = true from by decide,
      show ("SCID_X_LINKED" : String) ≠ "HEALTHY" from by decide,
      show ("SCID_X_LINKED" : String) ≠ "NORMAL" from by decide,
      show ("SCID_X_LINKED" : String) ≠ "NO_DISEASE" from by decide]
  exact ⟨by decide, by norm_num, hval, by rw [hval]; decide⟩

/-- A small concrete fitted encoder for the Gender column, used to
evaluate the pipelines at concrete inputs. -/
def genderEncoder : String → Option ℚ :=
  fun s => if s = "Male" then some 1 else if s = "Female" then some 0 else none

/-- A small concrete artifact bundle with one categorical and one
numeric column, a non-identity scaler and a constant classifier, used to
evaluate the pipelines at concrete inputs. -/
def demoBundle : Bundle where
  feature_names := ["Gender", "Age_Years"]
  encoders := [("Gender", genderEncoder)]
  scale := fun _ _ => 7
  model := fun _ => 0
  modelProbs := fun _ => [9/10, 1/10]
  target_classes := ["Healthy", "SCID_X_Linked"]
  importances := [2/100, 5/10]

/-- A concrete raw patient record supplying the two demo fields. -/
def demoPatient : List (String × RawValue) :=
  [("gender", RawValue.str "Male"), ("ageYears", RawValue.num 2)]

/-- C1 (code bug): at a concrete populated vector with an
integer-encoded categorical column, the scaling step of `ml_api.py`
leaves the categorical column at its raw code while the scaling step
shared by `api.py` and `predict.py` transforms every column; the two
disagree, so in the `ml_api.py` variant the categorical columns bypass
the fitted scaler. -/
theorem C1_mlapi_categorical_bypasses_scaler :
    api_encode demoBundle demoPatient none = [("Gender", 1), ("Age_Years", 2)] ∧
    scaleAll demoBundle [("Gender", 1), ("Age_Years", 2)] =
      [("Gender", 7), ("Age_Years", 7)] ∧
    mlapi_scale demoBundle [("Gender", 1), ("Age_Years", 2)] =
      [("Gender", 1), ("Age_Years", 7)] ∧
    mlapi_scale demoBundle [("Gender", 1), ("Age_Years", 2)] ≠
      scaleAll demoBundle [("Gender", 1), ("Age_Years", 2)] := by
  refine ⟨rfl, rfl, rfl, ?_⟩
  intro h
  rw [show mlapi_scale demoBundle [("Gender", 1), ("Age_Years", 2)] =
        [("Gender", 1), ("Age_Years", 7)] from rfl,
      show scaleAll demoBundle [("Gender", 1), ("Age_Years", 2)] =
        [("Gender", 7), ("Age_Years", 7)] from rfl] at h
  have h2 : (1 : ℚ) = 7 := by
    injection h with h1 _
    injection h1 with _ h2
  exact absurd h2 (by norm_num)

/-- Projection of the field of an inference result that records the wall
clock. -/
def outTimestamp : InferenceOutput → String
  | .failure e => e
  | .ok p => p.timestamp

/-- Erasure of the wall-clock field of an inference result. -/
def stripTime : InferenceOutput → InferenceOutput
  | .failure e => .failure e
  | .ok p => .ok { p with timestamp := "" }

/-- C6 (amended): re-running the one-shot inference pipeline on
identical input against the same bundle yields results identical in
every field except the timestamp, which records the wall clock of the
run; the pipeline is otherwise a pure function of its inputs. -/
theorem C6_deterministic_up_to_timestamp (sys : Option Bundle)
    (input : List (String × RawValue)) (t1 t2 : String) :
    stripTime (inference_predict sys input t1) =
      stripTime (inference_predict sys input t2) := by
  cases sys <;> rfl

/-- Counterexample for C6 as frozen: two runs of the one-shot pipeline
on identical input and bundle, performed at different wall-clock
instants, produce unequal outputs, because the result embeds the
current timestamp. -/
theorem C6_counterexample_timestamp_varies :
    inference_predict (some demoBundle) demoPatient "2024-01-01T00:00:00" ≠
      inference_predict (some demoBundle) demoPatient "2024-01-01T00:00:01" := by
  intro h
  have h2 := congrArg outTimestamp h
  exact absurd (h2 : ("2024-01-01T00:00:00" : String) = "2024-01-01T00:00:01")
    (by decide)

/-- C8: a request whose patient record lacks one of the four required
fields is answered at the transport boundary with the structured
missing-field error, and the response is independent of the loaded
bundle, so the inference pipeline is never entered for such a
request. -/
theorem C8_missing_required_field_rejected (sys : Option Bundle)
    (data : ApiRequestBody) (f : String)
    (hf : f ∈ required_fields)
    (hmiss : (data.patientData.lookup f).isNone = true) :
    predict_route sys (some data) =
      HttpResponse.badRequest ("Missing required fields: " ++
        String.intercalate ", "
          (required_fields.filter (fun g => (data.patientData.lookup g).isNone))) ∧
    ∀ sys2 : Option Bundle,
      predict_route sys (some data) = predict_route sys2 (some data) := by
  have hmem : f ∈ required_fields.filter
      (fun g => (data.patientData.lookup g).isNone) :=
    List.mem_filter.mpr ⟨hf, hmiss⟩
  have hne : (required_fields.filter
      (fun g => (data.patientData.lookup g).isNone)).isEmpty = false := by
    cases hl : required_fields.filter (fun g => (data.patientData.lookup g).isNone) with
    | nil => rw [hl] at hmem; cases hmem
    | cons a t => rfl
  exact ⟨by simp [predict_route, hne], fun sys2 => by simp [predict_route, hne]⟩

/-- Witness for C8: a record supplying only the age is rejected with the
structured error naming the three absent required fields. -/
theorem C8_missing_required_field_rejected_witness :
    predict_route none (some ⟨[("ageYears", RawValue.num 1)], none⟩) =
      HttpResponse.badRequest "Missing required fields: gender, labALCLevel, labIgGLevel" := by
  have h := (C8_missing_required_field_rejected none
      ⟨[("ageYears", RawValue.num 1)], none⟩ "gender" (by decide) rfl).1
  rw [h]
  rfl

/-- Preservation of a predicate along a left fold whose steps preserve
it. -/
theorem foldl_preserves {α β : Type} (P : β → Prop) (step : β → α → β)
    (l : List α) (hstep : ∀ df a, a ∈ l → P df → P (step df a)) :
    ∀ df, P df → P (l.foldl step df) := by
  induction l with
  | nil => intro df h; exact h
  | cons a rest ih =>
    intro df h
    rw [List.foldl_cons]
    exact ih (fun df b hb => hstep df b (List.mem_cons_of_mem _ hb)) _
      (hstep df a (List.mem_cons_self _ _) h)

/-- Cell assignment to an existing column keeps the column labels. -/
theorem dfCols_dfAt_of_mem (df : Row) (col : String) (v : ℚ)
    (h : col ∈ dfCols df) : dfCols (dfAt df col v) = dfCols df := by
  have hany : (df.any fun c => decide (c.1 = col)) = true := by
    rw [List.any_eq_true]
    rcases List.mem_map.mp h with ⟨c, hc, hfst⟩
    exact ⟨c, hc, decide_eq_true hfst⟩
  simp only [dfAt, hany, if_true]
  simp only [dfCols, List.map_map]
  refine List.map_congr_left (fun c hc => ?_)
  by_cases hcc : c.1 = col
  · simp [hcc]
  · simp [hcc]

/-- The initial zero row carries exactly the schema labels. -/
theorem dfCols_dfInit (cols : List String) : dfCols (dfInit cols) = cols := by
  simp only [dfCols, dfInit, List.map_map]
  rw [show (Prod.fst ∘ fun c : String => (c, (0 : ℚ))) = id from rfl, List.map_id]

/-- The manual-input step keeps the column labels equal to the
schema. -/
theorem processCell_cols (b : Bundle) (df : Row) (kv : String × RawValue)
    (h : dfCols df = b.feature_names) :
    dfCols (processCell b df kv) = b.feature_names := by
  unfold processCell
  by_cases hmem : kv.1 ∈ b.feature_names
  · rw [if_pos hmem]
    have hcol : kv.1 ∈ dfCols df := by rw [h]; exact hmem
    cases b.encoders.lookup kv.1 <;>
      rw [dfCols_dfAt_of_mem _ _ _ hcol, h]
  · rw [if_neg hmem]; exact h

/-- The inference.py population step keeps the column labels equal to
the schema. -/
theorem inferStep_cols (b : Bundle) (input : List (String × RawValue))
    (df : Row) (km : String × String) (h : dfCols df = b.feature_names) :
    dfCols (inferStep b input df km) = b.feature_names := by
  unfold inferStep
  cases input.lookup km.1 with
  | none => exact h
  | some v0 =>
    dsimp only
    by_cases hmem : km.2 ∈ b.feature_names
    · rw [if_pos hmem]
      have hcol : km.2 ∈ dfCols df := by rw [h]; exact hmem
      cases b.encoders.lookup km.2 <;>
        rw [dfCols_dfAt_of_mem _ _ _ hcol, h]
    · rw [if_neg hmem]; exact h

/-- The gene-expression step keeps the column labels equal to the
schema whenever the visited feature belongs to it. -/
theorem geneStep_cols (gd : List (String × ℚ)) (names : List String)
    (df : Row) (f : String) (hf : f ∈ names) (h : dfCols df = names) :
    dfCols (geneStep gd df f) = names := by
  unfold geneStep
  by_cases hb : (strContains f "Gene_Exp_" || strContains f "Control_Gene_") = true
  · rw [if_pos hb]
    have hcol : f ∈ dfCols df := by rw [h]; exact hf
    cases gd.lookup ((f.replace "Gene_Exp_" "").replace "Control_Gene_" "") with
    | none => exact h
    | some v => rw [dfCols_dfAt_of_mem _ _ _ hcol, h]
  · rw [if_neg hb]; exact h

/-- Column labels of the populated api.py vector are exactly the
schema. -/
theorem api_encode_cols (b : Bundle) (patient : List (String × RawValue))
    (gene : Option (List (String × ℚ))) :
    dfCols (api_encode b patient gene) = b.feature_names := by
  have h1 : dfCols (processManual b (dfInit b.feature_names) (manualData patient)) =
      b.feature_names :=
    foldl_preserves (fun df => dfCols df = b.feature_names) (processCell b) _
      (fun df a _ hp => processCell_cols b df a hp) _ (dfCols_dfInit _)
  cases gene with
  | none => exact h1
  | some gd =>
    exact foldl_preserves (fun df => dfCols df = b.feature_names) (geneStep gd)
      b.feature_names (fun df f hf hp => geneStep_cols gd b.feature_names df f hf hp)
      _ h1

/-- Column labels of the populated inference.py vector are exactly the
schema. -/
theorem inference_encode_cols (b : Bundle) (input : List (String × RawValue)) :
    dfCols (inference_encode b input) = b.feature_names :=
  foldl_preserves (fun df => dfCols df = b.feature_names) (inferStep b input) _
    (fun df a _ hp => inferStep_cols b input df a hp) _ (dfCols_dfInit _)

/-- C4: for every raw patient record (any subset of recognized fields,
unrecognized fields included or not) and optional gene record, the
populated feature vector has exactly the schema labels of the bundle in
the schema order, hence exactly as many entries, in both the `api.py`
and the `inference.py` population paths. -/
theorem C4_encoded_vector_matches_schema (b : Bundle)
    (patient input : List (String × RawValue))
    (gene : Option (List (String × ℚ))) :
    dfCols (api_encode b patient gene) = b.feature_names ∧
    (api_encode b patient gene).length = b.feature_names.length ∧
    dfCols (inference_encode b input) = b.feature_names ∧
    (inference_encode b input).length = b.feature_names.length := by
  have h1 := api_encode_cols b patient gene
  have h2 := inference_encode_cols b input
  refine ⟨h1, ?_, h2, ?_⟩
  · rw [← h1]; simp [dfCols]
  · rw [← h2]; simp [dfCols]

/-- Predicate stating that every cell of a column holds the neutral
value 0. -/
def ZeroAt (df : Row) (col : String) : Prop :=
  ∀ c ∈ df, c.1 = col → c.2 = 0

/-- The search the `.at` setter performs succeeds on a present
column. -/
theorem dfAny_of_mem {df : Row} {col : String} (h : col ∈ dfCols df) :
    (df.any fun c => decide (c.1 = col)) = true := by
  rw [List.any_eq_true]
  rcases List.mem_map.mp h with ⟨c, hc, hfst⟩
  exact ⟨c, hc, decide_eq_true hfst⟩

/-- Writing 0 into a present column whose cells are already 0 is the
identity. -/
theorem dfAt_self_zero {df : Row} {col : String} (hmem : col ∈ dfCols df)
    (hz : ZeroAt df col) : dfAt df col 0 = df := by
  simp only [dfAt, dfAny_of_mem hmem, if_true]
  have hcongr : ∀ c ∈ df, (if c.1 = col then (col, (0 : ℚ)) else c) = c := by
    intro c hc
    by_cases hcc : c.1 = col
    · rw [if_pos hcc]
      have hv := hz c hc hcc
      cases c with
      | mk a q => exact Prod.ext hcc.symm hv.symm
    · rw [if_neg hcc]
  have h2 : df.map (fun c => if c.1 = col then (col, (0 : ℚ)) else c) = df.map id :=
    List.map_congr_left hcongr
  rw [h2, List.map_id]

/-- Writing any value into a different column keeps a column all
zero. -/
theorem ZeroAt_dfAt {df : Row} {col col2 : String} {v : ℚ} (hne : col2 ≠ col)
    (hz : ZeroAt df col) : ZeroAt (dfAt df col2 v) col := by
  intro c hc hcol
  unfold dfAt at hc
  by_cases hany : (df.any fun x => decide (x.1 = col2)) = true
  · rw [if_pos hany] at hc
    rcases List.mem_map.mp hc with ⟨c0, hc0, hfc⟩
    by_cases hcc : c0.1 = col2
    · rw [if_pos hcc] at hfc
      rw [← hfc] at hcol
      exact absurd hcol hne
    · rw [if_neg hcc] at hfc
      exact hz c (hfc ▸ hc0) hcol
  · rw [if_neg hany] at hc
    rcases List.mem_append.mp hc with hc | hc
    · exact hz c hc hcol
    · rw [List.mem_singleton.mp hc] at hcol
      exact absurd hcol hne

/-- The initial row is all zero at every column. -/
theorem ZeroAt_dfInit (cols : List String) (col : String) :
    ZeroAt (dfInit cols) col := by
  intro c hc _
  rcases List.mem_map.mp hc with ⟨x, _, hx⟩
  rw [← hx]

/-- The manual-input step for a key other than `col` keeps column `col`
all zero. -/
theorem processCell_ZeroAt (b : Bundle) (df : Row) (kv : String × RawValue)
    (col : String) (hne : kv.1 ≠ col) (hz : ZeroAt df col) :
    ZeroAt (processCell b df kv) col := by
  unfold processCell
  by_cases hmem : kv.1 ∈ b.feature_names
  · rw [if_pos hmem]
    cases b.encoders.lookup kv.1 <;> exact ZeroAt_dfAt hne hz
  · rw [if_neg hmem]; exact hz

/-- A successful association-list lookup exhibits a member. -/
theorem lookup_mem {β : Type} {l : List (String × β)} {k : String} {v : β}
    (h : l.lookup k = some v) : (k, v) ∈ l := by
  induction l with
  | nil => cases h
  | cons p rest ih =>
    cases p with
    | mk k2 v2 =>
      rw [List.lookup] at h
      cases hbe : (k == k2) with
      | true =>
        rw [hbe] at h
        cases h
        rw [show k = k2 from by exact eq_of_beq hbe]
        exact List.mem_cons_self _ _
      | false =>
        rw [hbe] at h
        exact List.mem_cons_of_mem _ (ih h)

/-- The field-name table maps distinct external keys to distinct
internal column names, so a column determines its key. -/
theorem feature_mapping_inj {k1 k2 col : String}
    (h1 : feature_mapping.lookup k1 = some col)
    (h2 : feature_mapping.lookup k2 = some col) : k1 = k2 := by
  have m1 := lookup_mem h1
  have m2 := lookup_mem h2
  have hnd : (feature_mapping.map Prod.snd).Nodup := by decide
  have h3 := List.inj_on_of_nodup_map hnd m1 m2 rfl
  exact congrArg Prod.fst h3

/-- The manual-input step is the identity on a zeroed, schema-labelled
row when the supplied category value is unseen by the fitted encoder of
its column. -/
theorem processCell_unknown (b : Bundle) (df : Row) (col v : String)
    (enc : String → Option ℚ)
    (henc : b.encoders.lookup col = some enc) (hv : enc v = none)
    (hcols : dfCols df = b.feature_names) (hz : ZeroAt df col) :
    processCell b df (col, RawValue.str v) = df := by
  unfold processCell
  by_cases hmem : col ∈ b.feature_names
  · rw [if_pos hmem]
    dsimp only
    rw [henc]
    dsimp only
    rw [show encodeValue enc (RawValue.str v) = none from hv]
    exact dfAt_self_zero (by rw [hcols]; exact hmem) hz
  · rw [if_neg hmem]

/-- In the `api.py` path, supplying an unseen category value for a
categorical column produces exactly the same populated vector as
omitting the field altogether: both leave the column at the neutral
default 0.0, pre-scaling.  The key set of the patient dictionary is
assumed duplicate-free, as Python dictionaries are. -/
theorem api_unknown_category_equals_absent (b : Bundle) (k col v : String)
    (enc : String → Option ℚ) (pre post : List (String × RawValue))
    (gene : Option (List (String × ℚ)))
    (hk : feature_mapping.lookup k = some col)
    (henc : b.encoders.lookup col = some enc)
    (hv : enc v = none)
    (hnodup : ((pre ++ (k, RawValue.str v) :: post).map Prod.fst).Nodup) :
    api_encode b (pre ++ (k, RawValue.str v) :: post) gene =
      api_encode b (pre ++ post) gene := by
  unfold api_encode
  suffices hman : processManual b (dfInit b.feature_names)
      (manualData (pre ++ (k, RawValue.str v) :: post)) =
      processManual b (dfInit b.feature_names) (manualData (pre ++ post)) by
    rw [hman]
  have hsplit : manualData (pre ++ (k, RawValue.str v) :: post) =
      manualData pre ++ (col, RawValue.str v) :: manualData post := by
    unfold manualData
    rw [List.filterMap_append]
    congr 1
    rw [List.filterMap_cons]
    simp [hk, normBool]
  have hsplit2 : manualData (pre ++ post) = manualData pre ++ manualData post := by
    unfold manualData
    exact List.filterMap_append _ _ _
  rw [hsplit, hsplit2]
  unfold processManual
  rw [List.foldl_append, List.foldl_cons, List.foldl_append]
  have hkpre : k ∉ pre.map Prod.fst := by
    have hmap : ((pre ++ (k, RawValue.str v) :: post).map Prod.fst) =
        pre.map Prod.fst ++ k :: post.map Prod.fst := by simp
    rw [hmap] at hnodup
    intro hkin
    exact (List.nodup_append.mp hnodup).2.2 hkin (List.mem_cons_self _ _)
  have hknotpre : ∀ m ∈ manualData pre, m.1 ≠ col := by
    intro m hm hcoleq
    rcases List.mem_filterMap.mp hm with ⟨a, ha, hfa⟩
    cases hlk : feature_mapping.lookup a.1 with
    | none => rw [hlk] at hfa; cases hfa
    | some mk =>
      rw [hlk] at hfa
      have hmk : mk = m.1 := by
        cases hfa
        rfl
      rw [hmk, hcoleq] at hlk
      have hak : a.1 = k := feature_mapping_inj hlk hk
      exact hkpre (hak ▸ List.mem_map_of_mem Prod.fst ha)
  have hinv : dfCols ((manualData pre).foldl (processCell b) (dfInit b.feature_names)) =
        b.feature_names ∧
      ZeroAt ((manualData pre).foldl (processCell b) (dfInit b.feature_names)) col := by
    refine foldl_preserves
      (fun df => dfCols df = b.feature_names ∧ ZeroAt df col)
      (processCell b) (manualData pre) ?_ _ ⟨dfCols_dfInit _, ZeroAt_dfInit _ _⟩
    intro df m hm hp
    exact ⟨processCell_cols b df m hp.1, processCell_ZeroAt b df m col (hknotpre m hm) hp.2⟩
  rw [processCell_unknown b _ col v enc henc hv hinv.1 hinv.2]

/-- The six external keys whose values the `value_mapping` table of
`inference.py` (lines 70-78) normalizes before encoding. -/
def value_mapped_keys : List String :=
  ["familyHistory", "consanguinity", "failureToThrive", "historyIVAntibiotics",
   "persistentThrush", "chronicDiarrhea"]

/-- A lookup for a key absent from the key list fails. -/
theorem lookup_none_of_not_mem {β : Type} {k : String} :
    ∀ {l : List (String × β)}, k ∉ l.map Prod.fst → List.lookup k l = none := by
  intro l
  induction l with
  | nil => intro _; rfl
  | cons p t ih =>
    intro h
    cases p with
    | mk a b2 =>
      simp only [List.map_cons, List.mem_cons, not_or] at h
      rw [List.lookup, show (k == a) = false from beq_eq_false_iff_ne.mpr h.1]
      exact ih h.2

/-- Removing a pair carrying a different key does not change a
lookup. -/
theorem lookup_middle {β : Type} (k2 k : String) (x : β)
    (pre post : List (String × β)) (hne : k2 ≠ k) :
    List.lookup k2 (pre ++ (k, x) :: post) = List.lookup k2 (pre ++ post) := by
  induction pre with
  | nil =>
    simp only [List.nil_append]
    rw [List.lookup, show (k2 == k) = false from beq_eq_false_iff_ne.mpr hne]
  | cons p t ih =>
    cases p with
    | mk a b2 =>
      simp only [List.cons_append]
      rw [List.lookup, List.lookup]
      cases k2 == a
      · exact ih
      · rfl

/-- A lookup finds the middle pair when its key is absent from the
prefix. -/
theorem lookup_middle_self {β : Type} (k : String) (x : β) :
    ∀ (pre : List (String × β)), (post : List (String × β)) →
      k ∉ pre.map Prod.fst →
      List.lookup k (pre ++ (k, x) :: post) = some x := by
  intro pre
  induction pre with
  | nil =>
    intro post _
    simp only [List.nil_append]
    rw [List.lookup, show (k == k) = true from beq_self_eq_true k]
  | cons p t ih =>
    intro post hpre
    cases p with
    | mk a b2 =>
      simp only [List.map_cons, List.mem_cons, not_or] at hpre
      simp only [List.cons_append]
      rw [List.lookup, show (k == a) = false from beq_eq_false_iff_ne.mpr hpre.1]
      exact ih post hpre.2

/-- With duplicate-free keys, a lookup finds exactly the stored pair. -/
theorem lookup_of_mem_keys_nodup {β : Type} {a : String} {b2 : β} :
    ∀ {l : List (String × β)}, (l.map Prod.fst).Nodup → (a, b2) ∈ l →
      List.lookup a l = some b2 := by
  intro l
  induction l with
  | nil => intro _ h; cases h
  | cons p t ih =>
    intro hnd h
    cases p with
    | mk x y =>
      simp only [List.map_cons] at hnd
      rcases List.mem_cons.mp h with heq | hmem
      · have h1 : a = x := congrArg Prod.fst heq
        have h2 : b2 = y := congrArg Prod.snd heq
        subst h1
        subst h2
        rw [List.lookup, show (a == a) = true from beq_self_eq_true a]
      · have hax : a ≠ x := by
          intro he
          subst he
          exact (List.nodup_cons.mp hnd).1 (List.mem_map_of_mem Prod.fst hmem)
        rw [List.lookup, show (a == x) = false from beq_eq_false_iff_ne.mpr hax]
        exact ih (List.nodup_cons.mp hnd).2 hmem

/-- The inference.py population step for a column other than `col`
keeps column `col` all zero. -/
theorem inferStep_ZeroAt (b : Bundle) (input : List (String × RawValue))
    (df : Row) (km : String × String) (col : String)
    (hne : km.2 ≠ col) (hz : ZeroAt df col) :
    ZeroAt (inferStep b input df km) col := by
  unfold inferStep
  cases input.lookup km.1 with
  | none => exact hz
  | some v0 =>
    dsimp only
    by_cases hmem : km.2 ∈ b.feature_names
    · rw [if_pos hmem]
      cases b.encoders.lookup km.2 <;> exact ZeroAt_dfAt hne hz
    · rw [if_neg hmem]; exact hz

/-- Core of the inference.py half: folding the population loop over two
inputs that differ only in one key carrying an unseen (and
un-normalized) category value for an encoder-owned column yields the
same row, because the one differing step writes the neutral 0.0 into a
still-zero column. -/
theorem inferfold_eq (b : Bundle) (k col v : String) (enc : String → Option ℚ)
    (i1 i0 : List (String × RawValue))
    (henc : b.encoders.lookup col = some enc) (hv : enc v = none)
    (hvm : infer_value_map k (RawValue.str v) = RawValue.str v)
    (hlk1 : i1.lookup k = some (RawValue.str v))
    (hlk0 : i0.lookup k = none)
    (hlkne : ∀ k2, k2 ≠ k → i1.lookup k2 = i0.lookup k2) :
    ∀ (L : List (String × String)),
      (∀ km ∈ L, km.1 = k → km.2 = col) →
      (∀ km ∈ L, km.2 = col → km.1 = k) →
      ∀ df, dfCols df = b.feature_names → ZeroAt df col →
        L.foldl (inferStep b i1) df = L.foldl (inferStep b i0) df := by
  intro L
  induction L with
  | nil => intro _ _ df _ _; rfl
  | cons km rest ih =>
    intro hkc hck df hcols hz
    rw [List.foldl_cons, List.foldl_cons]
    by_cases hkm : km.1 = k
    · have hcol2 : km.2 = col := hkc km (List.mem_cons_self _ _) hkm
      have hstep1 : inferStep b i1 df km = df := by
        unfold inferStep
        rw [hkm, hlk1]
        dsimp only
        by_cases hmem : km.2 ∈ b.feature_names
        · rw [if_pos hmem, hvm, hcol2, henc]
          dsimp only
          rw [show encodeValue enc (RawValue.str v) = none from hv]
          exact dfAt_self_zero (by rw [hcols]; rw [← hcol2]; exact hmem) hz
        · rw [if_neg hmem]
      have hstep0 : inferStep b i0 df km = df := by
        unfold inferStep
        rw [hkm, hlk0]
      rw [hstep1, hstep0]
      exact ih (fun km2 hm => hkc km2 (List.mem_cons_of_mem _ hm))
        (fun km2 hm => hck km2 (List.mem_cons_of_mem _ hm)) df hcols hz
    · have hstep : inferStep b i1 df km = inferStep b i0 df km := by
        unfold inferStep
        rw [hlkne km.1 hkm]
      rw [hstep]
      have hcol2 : km.2 ≠ col := fun hc => hkm (hck km (List.mem_cons_self _ _) hc)
      exact ih (fun km2 hm => hkc km2 (List.mem_cons_of_mem _ hm))
        (fun km2 hm => hck km2 (List.mem_cons_of_mem _ hm))
        (inferStep b i0 df km)
        (inferStep_cols b i0 df km hcols)
        (inferStep_ZeroAt b i0 df km col hcol2 hz)

/-- C5 (amended): supplying an unseen category value encodes like the
wholly absent field (neutral 0.0 pre-scaling) in the full `api.py` path
for every categorical column, and in the cited `inference.py` path for
every categorical column whose external key is not rewritten by the
`value_mapping` table; for the six value-mapped keys, `inference.py`
first normalizes an unseen value to a seen default and encodes that
default's fitted code instead. -/
theorem C5_unknown_category_equals_absent_amended (b : Bundle) (k col v : String)
    (enc : String → Option ℚ) (pre post : List (String × RawValue))
    (gene : Option (List (String × ℚ)))
    (hk : feature_mapping.lookup k = some col)
    (henc : b.encoders.lookup col = some enc)
    (hv : enc v = none)
    (hnodup : ((pre ++ (k, RawValue.str v) :: post).map Prod.fst).Nodup) :
    api_encode b (pre ++ (k, RawValue.str v) :: post) gene =
      api_encode b (pre ++ post) gene ∧
    (k ∉ value_mapped_keys →
      inference_encode b (pre ++ (k, RawValue.str v) :: post) =
        inference_encode b (pre ++ post)) := by
  constructor
  · exact api_unknown_category_equals_absent b k col v enc pre post gene
      hk henc hv hnodup
  · intro hnvm
    have hmapkeys : ((pre ++ (k, RawValue.str v) :: post).map Prod.fst) =
        pre.map Prod.fst ++ k :: post.map Prod.fst := by simp
    rw [hmapkeys] at hnodup
    have hnd := List.nodup_append.mp hnodup
    have hkpre : k ∉ pre.map Prod.fst :=
      fun hkin => hnd.2.2 hkin (List.mem_cons_self _ _)
    have hkpost : k ∉ post.map Prod.fst := (List.nodup_cons.mp hnd.2.1).1
    have hlk1 : (pre ++ (k, RawValue.str v) :: post).lookup k =
        some (RawValue.str v) :=
      lookup_middle_self k _ pre post hkpre
    have hlk0 : (pre ++ post).lookup k = none := by
      apply lookup_none_of_not_mem
      simp only [List.map_append, List.mem_append]
      rintro (h | h)
      · exact hkpre h
      · exact hkpost h
    have hlkne : ∀ k2, k2 ≠ k →
        (pre ++ (k, RawValue.str v) :: post).lookup k2 = (pre ++ post).lookup k2 :=
      fun k2 h2 => lookup_middle k2 k _ pre post h2
    have h1 : k ≠ "familyHistory" :=
      fun he => hnvm (show k ∈ value_mapped_keys by rw [he]; decide)
    have h2 : k ≠ "consanguinity" :=
      fun he => hnvm (show k ∈ value_mapped_keys by rw [he]; decide)
    have h3 : k ≠ "failureToThrive" :=
      fun he => hnvm (show k ∈ value_mapped_keys by rw [he]; decide)
    have h4 : k ≠ "historyIVAntibiotics" :=
      fun he => hnvm (show k ∈ value_mapped_keys by rw [he]; decide)
    have h5 : k ≠ "persistentThrush" :=
      fun he => hnvm (show k ∈ value_mapped_keys by rw [he]; decide)
    have h6 : k ≠ "chronicDiarrhea" :=
      fun he => hnvm (show k ∈ value_mapped_keys by rw [he]; decide)
    have hvm : infer_value_map k (RawValue.str v) = RawValue.str v := by
      unfold infer_value_map
      rw [if_neg (by rintro (h | h | h | h); exacts [h1 h, h2 h, h3 h, h4 h]),
        if_neg h5, if_neg h6]
    have hfmnd : (feature_mapping.map Prod.fst).Nodup := by decide
    have hsnd : (feature_mapping.map Prod.snd).Nodup := by decide
    have hkc : ∀ km ∈ feature_mapping, km.1 = k → km.2 = col := by
      intro km hm hkm
      have hlkm : feature_mapping.lookup km.1 = some km.2 :=
        lookup_of_mem_keys_nodup hfmnd hm
      rw [hkm, hk] at hlkm
      exact (Option.some.inj hlkm).symm
    have hck : ∀ km ∈ feature_mapping, km.2 = col → km.1 = k := by
      intro km hm hcm
      have hmemk : (k, col) ∈ feature_mapping := lookup_mem hk
      have hkm : km = (k, col) :=
        List.inj_on_of_nodup_map hsnd hm hmemk (by rw [hcm])
      exact congrArg Prod.fst hkm
    exact inferfold_eq b k col v enc _ _ henc hv hvm hlk1 hlk0 hlkne
      feature_mapping hkc hck (dfInit b.feature_names)
      (dfCols_dfInit _) (ZeroAt_dfInit _ _)

/-- Witness for C5 (amended): on the demo bundle, a record carrying the
unseen gender category Unknown (gender is not a value-mapped key)
encodes like the record omitting gender, in both population paths. -/
theorem C5_unknown_category_amended_witness :
    api_encode demoBundle
        [("ageYears", RawValue.num 2), ("gender", RawValue.str "Unknown")] none =
      api_encode demoBundle [("ageYears", RawValue.num 2)] none ∧
    inference_encode demoBundle
        [("ageYears", RawValue.num 2), ("gender", RawValue.str "Unknown")] =
      inference_encode demoBundle [("ageYears", RawValue.num 2)] := by
  have h := C5_unknown_category_equals_absent_amended demoBundle "gender" "Gender"
    "Unknown" genderEncoder [("ageYears", RawValue.num 2)] [] none
    rfl rfl rfl (by decide)
  exact ⟨h.1, h.2 (by decide)⟩

/-- A fitted encoder for the Chronic_Diarrhea column: the training
classes sort as Chronic, No, so their codes are 0 and 1. -/
def diarrheaEncoder : String → Option ℚ :=
  fun s => if s = "Chronic" then some 0 else if s = "No" then some 1 else none

/-- A small concrete artifact bundle with the one value-mapped
categorical column Chronic_Diarrhea. -/
def demoBundle2 : Bundle where
  feature_names := ["Chronic_Diarrhea"]
  encoders := [("Chronic_Diarrhea", diarrheaEncoder)]
  scale := fun _ q => q
  model := fun _ => 0
  modelProbs := fun _ => [1]
  target_classes := ["Healthy"]
  importances := [1/10]

/-- Counterexample for C5 as frozen: in the cited `inference.py` path,
supplying the unseen diarrhea category Occasional does not encode to the
absent-field 0.0: the `value_mapping` table first rewrites it to the
seen default No, whose fitted code is 1, so the populated entry is 1.0
while the wholly absent field leaves 0.0. -/
theorem C5_counterexample_inference_value_mapping :
    inference_encode demoBundle2 [("chronicDiarrhea", RawValue.str "Occasional")] =
      [("Chronic_Diarrhea", 1)] ∧
    inference_encode demoBundle2 [] = [("Chronic_Diarrhea", 0)] ∧
    inference_encode demoBundle2 [("chronicDiarrhea", RawValue.str "Occasional")] ≠
      inference_encode demoBundle2 [] := by
  refine ⟨rfl, rfl, ?_⟩
  intro h
  rw [show inference_encode demoBundle2
        [("chronicDiarrhea", RawValue.str "Occasional")] =
        [("Chronic_Diarrhea", 1)] from rfl,
      show inference_encode demoBundle2 [] = [("Chronic_Diarrhea", 0)] from rfl] at h
  have h2 : (1 : ℚ) = 0 := by
    injection h with h1 _
    injection h1 with _ h2
  exact absurd h2 one_ne_zero

/-- Descending index sort of the importance scores, as the claim words
the selection; the source instead takes the last ten ascending positions
and reverses. -/
def argsortDesc (xs : List ℚ) : List ℕ :=
  (argsort xs).reverse

/-- Feature-importance selection exactly as the claim words it: sort the
scores descending, keep at most the top 10, drop entries at or below
0.01, and annotate the direction from the request value.  Stated
separately so the source embedding can be proved to refine it. -/
def feature_importance_spec (b : Bundle) (scaled : Row) : List FIEntry :=
  (((argsortDesc b.importances).take 10).filter
    (fun i => b.importances.getD i 0 > 1/100)).map (mkFIEntry b scaled)

/-- The slice `[-10:][::-1]` of an ascending sort is the 10-prefix of
the descending sort. -/
theorem topIndices_eq (xs : List ℚ) : topIndices xs = (argsortDesc xs).take 10 := by
  unfold topIndices argsortDesc
  rw [show ((argsort xs).drop ((argsort xs).length - 10)) = (argsort xs).rtake 10 from rfl]
  rw [List.rtake_eq_reverse_take_reverse, List.reverse_reverse]

/-- A conditional filterMap is a filter followed by a map. -/
theorem filterMap_ite_eq_filter_map {α β : Type} (p : α → Prop) [DecidablePred p]
    (f : α → β) (l : List α) :
    l.filterMap (fun a => if p a then some (f a) else none) =
      (l.filter (fun a => p a)).map f := by
  induction l with
  | nil => rfl
  | cons a t ih =>
    by_cases hp : p a
    · simp [hp, ih]
    · simp [hp, ih]

/-- The selected indices carry importance scores sorted descending. -/
theorem topIndices_sorted (xs : List ℚ) :
    ((topIndices xs).map (fun i => xs.getD i 0)).Pairwise (fun a c => c ≤ a) := by
  rw [topIndices_eq, List.pairwise_map]
  apply List.Pairwise.sublist (List.take_sublist _ _)
  unfold argsortDesc
  rw [List.pairwise_reverse]
  unfold argsort
  haveI : IsTotal ℕ (fun i j => xs.getD i 0 ≤ xs.getD j 0) := ⟨fun a b => le_total _ _⟩
  haveI : IsTrans ℕ (fun i j => xs.getD i 0 ≤ xs.getD j 0) :=
    ⟨fun a b c hab hbc => le_trans hab hbc⟩
  exact List.sorted_insertionSort _ _

/-- At most ten indices are selected. -/
theorem topIndices_length_le (xs : List ℚ) : (topIndices xs).length ≤ 10 := by
  unfold topIndices
  rw [List.length_reverse, List.length_drop]
  omega

/-- C9: the explainability list of `api.py` equals the claim-side
selection (sort descending, take at most the top ten, drop scores at or
below 0.01, annotate), has at most ten entries, lists scores in
descending order, and labels each kept entry positive exactly when the
scaled request value at that feature is positive - the direction comes
from the request value, not from the importance sign. -/
theorem C9_feature_importance (b : Bundle) (scaled : Row) :
    get_feature_importance b scaled = feature_importance_spec b scaled ∧
    (get_feature_importance b scaled).length ≤ 10 ∧
    ((topIndices b.importances).map (fun i => b.importances.getD i 0)).Pairwise
      (fun a c => c ≤ a) ∧
    ∀ e ∈ get_feature_importance b scaled, ∃ i ∈ topIndices b.importances,
      (1/100 : ℚ) < b.importances.getD i 0 ∧ e = mkFIEntry b scaled i ∧
      (e.direction = "positive" ↔ 0 < (scaled.map Prod.snd).getD i 0) := by
  have heq : get_feature_importance b scaled = feature_importance_spec b scaled := by
    unfold get_feature_importance feature_importance_spec
    rw [filterMap_ite_eq_filter_map, topIndices_eq]
  refine ⟨heq, ?_, topIndices_sorted _, ?_⟩
  · calc (get_feature_importance b scaled).length
        ≤ (topIndices b.importances).length :=
          List.length_filterMap_le _ _
      _ ≤ 10 := topIndices_length_le _
  · intro e he
    rw [heq] at he
    unfold feature_importance_spec at he
    rcases List.mem_map.mp he with ⟨i, hi, hei⟩
    rcases List.mem_filter.mp hi with ⟨htake, himp⟩
    refine ⟨i, by rw [topIndices_eq]; exact htake, by simpa using himp, hei.symm, ?_⟩
    rw [← hei]
    unfold mkFIEntry
    by_cases hval : (0 : ℚ) < (scaled.map Prod.snd).getD i 0
    · simp [hval]
    · simp only [gt_iff_lt, if_neg hval]
      constructor
      · intro hcontr
        exact absurd hcontr (by decide)
      · intro hcontr
        exact absurd hcontr hval

end ImmunoDetect
